import Mathlib

/-!
Shallow embedding of the WebSocket relay server `src/serveur.js`
(IoT streetlight hub: Express + PostgreSQL + ws).  The source file
contains two revisions of the server; definitions below are suffixed
`_rev1` / `_rev2` accordingly.

Modelling conventions:
* JavaScript values that may be either a number or a string (the
  `idLampadaire` field of command messages, the `lampId` stored in the
  registry) are modelled by `JSVal`.
* The PostgreSQL table `lampadaires` is modelled as a list of rows
  (`DBRow`); only the columns the verified behaviour touches are kept
  (id, mac, latitude, longitude, status, signal, token, last_update).
* `espClients` (a JS `Map`, insertion ordered, unique keys) is a list of
  key/value pairs manipulated by `mapSet` / `mapDelete` / `mapGet`,
  which reproduce `Map.set` (in-place update of an existing key, append
  of a new one), `Map.delete` and `Map.get`.
* Handlers return an `Outcome`: the new server state plus the observable
  effects, in order — messages sent (`sends`, pairs of connection id and
  payload), store writes attempted (`writes`), and connections the
  handler itself closed (`closes`).
* `await pool.query(...)` can throw; each fallible call site takes a
  Bool failure flag (`selectFails`, `updateFails`) injecting that throw,
  after which control jumps to the enclosing `catch` as in the source.
* `ws.readyState === WebSocket.OPEN` is modelled by a predicate
  `isOpen : Nat → Bool` on connection handles.
-/

namespace Serveur

/-- A JavaScript value that is either a string or an (integer) number. -/
inductive JSVal where
  | str : String → JSVal
  | num : Int → JSVal
deriving DecidableEq, Repr

/-- JavaScript `String(v)` on the values we model. -/
def jsToString : JSVal → String
  | .str s => s
  | .num n => toString n

/-- JavaScript truthiness of a value (`"" `and `0` are falsy). -/
def jsTruthy : JSVal → Bool
  | .str s => s ≠ ""
  | .num n => n ≠ 0

/-- JavaScript strict equality `===`: no coercion across types. -/
def strictEq : JSVal → JSVal → Bool
  | .str a, .str b => a == b
  | .num a, .num b => a == b
  | _, _ => false

/-- One row of the `lampadaires` table (claim-relevant columns only). -/
structure DBRow where
  id : String
  mac : String
  latitude : JSVal
  longitude : JSVal
  status : String
  signal : Int
  token : String
  lastUpdate : Nat
deriving DecidableEq, Repr

/-- A registry value: `espClients.set(mac, { ws, lampId, token })`. -/
structure Client where
  ws : Nat
  lampId : JSVal
  token : String
deriving DecidableEq, Repr

/-- The mutable server state: `espClients`, `androidClients`, and the
database contents. -/
structure ServerState where
  espClients : List (String × Client)
  androidClients : List Nat
  db : List DBRow
deriving DecidableEq, Repr

/-- Outbound payloads the server produces (shapes of the
`JSON.stringify` calls). -/
inductive OutMsg where
  | welcomeAndroid
  | welcomeEsp (lampId token status : String)
  | errorMsg (m : String)
  | lampConnected (lampId mac status : String)
  | lampDisconnected (lampId : JSVal) (mac status : String)
  | lampAdded (id mac : String)
  | commandFwd (command : String) (idLampadaire : Option JSVal)
  | commandSent (command : String) (lampId : Option JSVal)
deriving DecidableEq, Repr

/-- Is this payload a forwarded `command` (a device delivery)? -/
def OutMsg.isFwd : OutMsg → Bool
  | .commandFwd _ _ => true
  | _ => false

/-- Is this payload a `command_sent` confirmation? -/
def OutMsg.isConfirm : OutMsg → Bool
  | .commandSent _ _ => true
  | _ => false

/-- A store write attempted via `pool.query`. -/
inductive DBWrite where
  | updateStatusByMac (status mac : String)
  | insertLamp (id mac : String)
deriving DecidableEq, Repr

/-- Result of running a handler: new state plus observable effects. -/
structure Outcome where
  state : ServerState
  sends : List (Nat × OutMsg)
  writes : List DBWrite
  closes : List Nat
deriving Repr

/-- A handler run that changes nothing and emits nothing. -/
def noOutcome (s : ServerState) : Outcome :=
  { state := s, sends := [], writes := [], closes := [] }

/-- `Map.set`: update in place when the key exists, append otherwise. -/
def mapSet (m : List (String × Client)) (k : String) (v : Client) :
    List (String × Client) :=
  if m.any (fun p => p.1 == k) then
    m.map (fun p => if p.1 == k then (k, v) else p)
  else m ++ [(k, v)]

/-- `Map.get`. -/
def mapGet (m : List (String × Client)) (k : String) : Option Client :=
  (m.find? (fun p => p.1 == k)).map Prod.snd

/-- `Map.delete`. -/
def mapDelete (m : List (String × Client)) (k : String) :
    List (String × Client) :=
  m.filter (fun p => p.1 != k)

/-- `SELECT ... FROM lampadaires WHERE mac = $1` (mac is UNIQUE). -/
def dbFindByMac (db : List DBRow) (mac : String) : Option DBRow :=
  db.find? (fun r => r.mac == mac)

/-- `UPDATE lampadaires SET status = $1, last_update = NOW() WHERE mac = $2`. -/
def dbUpdateStatusByMac (db : List DBRow) (st mac : String) (now : Nat) :
    List DBRow :=
  db.map (fun r => if r.mac == mac then
    { r with status := st, lastUpdate := now } else r)

/-- `broadcastToAndroid`: send to each `androidClients` element whose
connection is currently open (both revisions have the same body). -/
def broadcastToAndroid (isOpen : Nat → Bool) (clients : List Nat)
    (m : OutMsg) : List (Nat × OutMsg) :=
  (clients.filter isOpen).map (fun c => (c, m))

/-- An inbound `register` message: `clientType` plus the optional `mac`. -/
structure RegisterMsg where
  clientType : String
  mac : Option String
deriving DecidableEq, Repr

/-- An inbound `command` message: the command text plus the optional
`idLampadaire` target. -/
structure CommandMsg where
  command : String
  idLampadaire : Option JSVal
deriving DecidableEq, Repr

/-- Revision 1 `handleRegister` (`src/serveur.js` lines 157–185).
An `android` client is pushed onto `androidClients` and welcomed; an
`esp32` client with a truthy `mac` is looked up in the store: on a hit
the registry entry is set and a welcome carrying the stored status is
sent; on a miss an error is sent and the connection closed; a thrown
store error is answered with an error reply (and no close). -/
def handleRegister_rev1 (selectFails : Bool) (s : ServerState) (ws : Nat)
    (d : RegisterMsg) : Outcome :=
  if d.clientType = "android" then
    { state := { s with androidClients := s.androidClients ++ [ws] },
      sends := [(ws, .welcomeAndroid)], writes := [], closes := [] }
  else
    match d.mac with
    | some mac =>
      if d.clientType = "esp32" ∧ mac ≠ "" then
        if selectFails then
          { state := s, sends := [(ws, .errorMsg "Erreur serveur")],
            writes := [], closes := [] }
        else
          match dbFindByMac s.db mac with
          | some lamp =>
            let es := mapSet s.espClients mac
              { ws := ws, lampId := .str lamp.id, token := lamp.token }
            { state := { s with espClients := es },
              sends := [(ws, .welcomeEsp lamp.id lamp.token lamp.status)],
              writes := [], closes := [] }
          | none =>
            { state := s,
              sends := [(ws, .errorMsg
                "MAC non enregistrée. Installer via app Android.")],
              writes := [], closes := [ws] }
      else noOutcome s
    | none => noOutcome s

/-- Revision 2 `handleRegister` (`src/serveur.js` lines 620–666).
Differences from revision 1: after inserting the registry entry it
eagerly persists status `CONNECTED`, the welcome carries the literal
status `CONNECTED`, a `lamp_connected` event is broadcast, and a thrown
store error is only logged (no reply, no close).  `selectFails` injects
a throw in the SELECT, `updateFails` in the UPDATE. -/
def handleRegister_rev2 (isOpen : Nat → Bool) (selectFails updateFails : Bool)
    (now : Nat) (s : ServerState) (ws : Nat) (d : RegisterMsg) : Outcome :=
  if d.clientType = "android" then
    { state := { s with androidClients := s.androidClients ++ [ws] },
      sends := [(ws, .welcomeAndroid)], writes := [], closes := [] }
  else
    match d.mac with
    | some mac =>
      if d.clientType = "esp32" ∧ mac ≠ "" then
        if selectFails then noOutcome s
        else
          match dbFindByMac s.db mac with
          | some lamp =>
            let es := mapSet s.espClients mac
              { ws := ws, lampId := .str lamp.id, token := lamp.token }
            if updateFails then
              { state := { s with espClients := es },
                sends := [],
                writes := [.updateStatusByMac "CONNECTED" mac],
                closes := [] }
            else
              let st :=
                { s with
                    espClients := es,
                    db := dbUpdateStatusByMac s.db "CONNECTED" mac now }
              { state := st,
                sends := (ws, .welcomeEsp lamp.id lamp.token "CONNECTED") ::
                  broadcastToAndroid isOpen s.androidClients
                    (.lampConnected lamp.id mac "CONNECTED"),
                writes := [.updateStatusByMac "CONNECTED" mac],
                closes := [] }
          | none =>
            { state := s,
              sends := [(ws, .errorMsg "MAC non enregistrée")],
              writes := [], closes := [ws] }
      else noOutcome s
    | none => noOutcome s

/-- Revision 2 `ws.on('close')` handler (`src/serveur.js` lines
570–602).  The first registry entry whose `ws` is the closing connection
is reconciled: status `HORS_LIGNE` is persisted and `lamp_disconnected`
broadcast (both inside a `try`; `updateFails` injects a throw, after
which only the log in the `catch` runs), then the entry is deleted —
unconditionally, the delete sits after the `try/catch`.  Finally the
connection is filtered out of `androidClients`. -/
def wsClose_rev2 (isOpen : Nat → Bool) (updateFails : Bool) (now : Nat)
    (s : ServerState) (ws : Nat) : Outcome :=
  let r : Outcome :=
    match s.espClients.find? (fun p => p.2.ws == ws) with
    | some (mac, client) =>
      if updateFails then
        { state := { s with espClients := mapDelete s.espClients mac },
          sends := [],
          writes := [.updateStatusByMac "HORS_LIGNE" mac],
          closes := [] }
      else
        let st :=
          { s with
              espClients := mapDelete s.espClients mac,
              db := dbUpdateStatusByMac s.db "HORS_LIGNE" mac now }
        { state := st,
          sends := broadcastToAndroid isOpen s.androidClients
            (.lampDisconnected client.lampId mac "HORS_LIGNE"),
          writes := [.updateStatusByMac "HORS_LIGNE" mac],
          closes := [] }
    | none => noOutcome s
  { r with state := { r.state with
      androidClients := r.state.androidClients.filter (fun c => c != ws) } }

/-- Revision 1 `handleCommand` (`src/serveur.js` lines 200–214).
A truthy `idLampadaire` routes to every open connection whose `lampId`
is strictly equal (`===`, no coercion, and no `break`: all matches are
sent); otherwise the command goes to every open device connection.
Either way a `command_sent` confirmation is broadcast. -/
def handleCommand_rev1 (isOpen : Nat → Bool) (s : ServerState)
    (d : CommandMsg) : Outcome :=
  let espSends :=
    match d.idLampadaire with
    | some t =>
      if jsTruthy t then
        (s.espClients.filter
            (fun e => strictEq e.2.lampId t && isOpen e.2.ws)).map
          (fun e => (e.2.ws, OutMsg.commandFwd d.command d.idLampadaire))
      else
        (s.espClients.filter (fun e => isOpen e.2.ws)).map
          (fun e => (e.2.ws, OutMsg.commandFwd d.command d.idLampadaire))
    | none =>
      (s.espClients.filter (fun e => isOpen e.2.ws)).map
        (fun e => (e.2.ws, OutMsg.commandFwd d.command d.idLampadaire))
  { state := s,
    sends := espSends ++ broadcastToAndroid isOpen s.androidClients
      (.commandSent d.command d.idLampadaire),
    writes := [], closes := [] }

/-- The revision 2 directed-routing test (`src/serveur.js` lines
687–688): `String(client.lampId) === String(targetLampId)` and the
connection is open. -/
def matchesTarget_rev2 (isOpen : Nat → Bool) (t : JSVal)
    (e : String × Client) : Bool :=
  jsToString e.2.lampId == jsToString t && isOpen e.2.ws

/-- Revision 2 `handleCommand` (`src/serveur.js` lines 680–716).
A target that is truthy and not strictly `"0"` is directed: the first
entry passing `matchesTarget_rev2` receives the forwarded command and
the loop `break`s (a miss is only logged).  Otherwise the command goes
to every open device connection.  Either way one `command_sent`
confirmation is broadcast. -/
def handleCommand_rev2 (isOpen : Nat → Bool) (s : ServerState)
    (d : CommandMsg) : Outcome :=
  let espSends :=
    match d.idLampadaire with
    | some t =>
      if jsTruthy t ∧ ¬ strictEq t (.str "0") then
        match s.espClients.find? (matchesTarget_rev2 isOpen t) with
        | some e => [(e.2.ws, OutMsg.commandFwd d.command d.idLampadaire)]
        | none => []
      else
        (s.espClients.filter (fun e => isOpen e.2.ws)).map
          (fun e => (e.2.ws, OutMsg.commandFwd d.command d.idLampadaire))
    | none =>
      (s.espClients.filter (fun e => isOpen e.2.ws)).map
        (fun e => (e.2.ws, OutMsg.commandFwd d.command d.idLampadaire))
  { state := s,
    sends := espSends ++ broadcastToAndroid isOpen s.androidClients
      (.commandSent d.command d.idLampadaire),
    writes := [], closes := [] }

/-- The connection handles of the device deliveries in an outcome (the
sends whose payload is a forwarded `command`). -/
def deviceDeliveries (r : Outcome) : List Nat :=
  (r.sends.filter (fun p => p.2.isFwd)).map Prod.fst

/-- The `command_sent` confirmation sends in an outcome. -/
def confirmSends (r : Outcome) : List (Nat × OutMsg) :=
  r.sends.filter (fun p => p.2.isConfirm)

/-- The HTTP response of `POST /api/lampadaire/install`. -/
inductive InstallResp where
  | badRequest
  | conflict (id : String)
  | serverError
  | ok (id token : String)
deriving DecidableEq, Repr

/-- The request body of `POST /api/lampadaire/install` (claim-relevant
fields; a missing `mac` is the empty string, which is equally falsy). -/
structure InstallReq where
  mac : String
  latitude : JSVal
  longitude : JSVal
deriving DecidableEq, Repr

/-- Revision 2 `POST /api/lampadaire/install` (`src/serveur.js` lines
413–458).  Missing mac/latitude/longitude → 400; an existing row for
the mac → 409 with its id; otherwise a row is inserted with the
generated id and token, status `OFF` and the schema default `signal = 0`
(a primary-key collision of the generated id makes the INSERT throw,
answered 500 by the catch), `lamp_added` is broadcast and the id and
token are returned. -/
def installLamp (isOpen : Nat → Bool) (s : ServerState) (req : InstallReq)
    (newId newToken : String) (now : Nat) : Outcome × InstallResp :=
  if req.mac = "" ∨ ¬ jsTruthy req.latitude ∨ ¬ jsTruthy req.longitude then
    (noOutcome s, .badRequest)
  else
    match dbFindByMac s.db req.mac with
    | some existing => (noOutcome s, .conflict existing.id)
    | none =>
      if s.db.any (fun r => r.id == newId) then (noOutcome s, .serverError)
      else
        let row : DBRow :=
          { id := newId, mac := req.mac, latitude := req.latitude,
            longitude := req.longitude, status := "OFF", signal := 0,
            token := newToken, lastUpdate := now }
        ({ state := { s with db := s.db ++ [row] },
           sends := broadcastToAndroid isOpen s.androidClients
             (.lampAdded newId req.mac),
           writes := [.insertLamp newId req.mac], closes := [] },
         .ok newId newToken)

/-- The status reconciliation in `GET /api/lampadaires` and
`GET /api/lampadaire/:id` (`src/serveur.js` lines 365–377 and 397–403):
a row whose mac has a live registry entry has a stale `OFF` replaced by
`CONNECTED`; a row without a live entry is forced to `HORS_LIGNE`. -/
def applyEffectiveStatus (espClients : List (String × Client))
    (lamp : DBRow) : DBRow :=
  let isConnected := espClients.any (fun p => p.1 == lamp.mac)
  if isConnected ∧ lamp.status = "OFF" then { lamp with status := "CONNECTED" }
  else if ¬ isConnected then { lamp with status := "HORS_LIGNE" }
  else lamp

/-- Iterating the revision 2 android registration: the state after a
connection sends `n` successive `register` messages with
`clientType = "android"`. -/
def registerAndroidN (isOpen : Nat → Bool) (now : Nat) (ws : Nat) :
    Nat → ServerState → ServerState
  | 0, s => s
  | n + 1, s =>
    registerAndroidN isOpen now ws n
      (handleRegister_rev2 isOpen false false now s ws
        { clientType := "android", mac := none }).state

/-! ### Concrete fixtures used by the witnesses and counterexamples -/

/-- A stored device row whose signal strength is 42. -/
def rowA : DBRow :=
  { id := "LAMP0001", mac := "AA:BB", latitude := .num 4, longitude := .num 9,
    status := "OFF", signal := 42, token := "tokA", lastUpdate := 0 }

/-- The registry value after `rowA`'s device registered on connection 1. -/
def clientA : Client := { ws := 1, lampId := .str "LAMP0001", token := "tokA" }

/-- A server state with one registered device and two observers. -/
def exState : ServerState :=
  { espClients := [("AA:BB", clientA)], androidClients := [5, 6],
    db := [rowA] }

/-- Connection 6 (one of the observers) is closed; everything else open. -/
def exOpen : Nat → Bool := fun c => c != 6

/-- A registry value whose resolved identity is the string `"5"`, on
connection 7 (fixture for the identity-matching claim). -/
def clientB : Client := { ws := 7, lampId := .str "5", token := "t" }

/-- A one-device, one-observer state holding `clientB` (fixture for the
identity-matching claim). -/
def digitState : ServerState :=
  { espClients := [("AA:BB", clientB)], androidClients := [5], db := [] }

/-! ### Helper lemmas about the registry and broadcast primitives -/

theorem mapGet_mapSet (m : List (String × Client)) (k : String) (v : Client) :
    mapGet (mapSet m k v) k = some v := by
  unfold mapSet
  split
  · rename_i hany
    induction m with
    | nil => simp at hany
    | cons a tl ih =>
      by_cases hk : a.1 = k
      · simp [mapGet, hk]
      · have htl : tl.any (fun p => p.1 == k) = true := by
          rcases List.any_eq_true.mp hany with ⟨p, hp, hpk⟩
          rcases List.mem_cons.mp hp with rfl | hmem
          · exact absurd (by simpa using hpk) hk
          · exact List.any_eq_true.mpr ⟨p, hmem, hpk⟩
        have := ih htl
        simpa [mapGet, hk] using this
  · induction m with
    | nil => simp [mapGet]
    | cons a tl ih =>
      rename_i hany
      have ha : (a.1 == k) = false := by
        by_contra h
        exact hany (List.any_eq_true.mpr ⟨a, List.mem_cons_self a tl,
          by simpa using h⟩)
      have htl : ¬ tl.any (fun p => p.1 == k) = true := fun h => by
        rcases List.any_eq_true.mp h with ⟨p, hp, hpk⟩
        exact hany (List.any_eq_true.mpr ⟨p, List.mem_cons_of_mem a hp, hpk⟩)
      have := ih htl
      simpa [mapGet, ha] using this

theorem mapGet_mapDelete (m : List (String × Client)) (k : String) :
    mapGet (mapDelete m k) k = none := by
  induction m with
  | nil => rfl
  | cons a tl ih =>
    by_cases hk : a.1 = k
    · simp only [mapDelete, List.filter_cons] at ih ⊢
      simp [hk, ih]
    · simp only [mapDelete, List.filter_cons] at ih ⊢
      simp [mapGet, hk, ih]

theorem signal_dbUpdateStatusByMac (db : List DBRow) (st mac : String)
    (now : Nat) :
    (dbUpdateStatusByMac db st mac now).map DBRow.signal =
      db.map DBRow.signal := by
  induction db with
  | nil => rfl
  | cons r tl ih =>
    by_cases h : r.mac = mac
    · simpa [dbUpdateStatusByMac, h] using ih
    · simpa [dbUpdateStatusByMac, h] using ih

theorem broadcast_filter_payload (isOpen : Nat → Bool) (l : List Nat)
    (m : OutMsg) (q : OutMsg → Bool) :
    (broadcastToAndroid isOpen l m).filter (fun p => q p.2) =
      if q m then broadcastToAndroid isOpen l m else [] := by
  unfold broadcastToAndroid
  induction l.filter isOpen with
  | nil => simp
  | cons c tl ih =>
    by_cases hq : q m
    · simp [hq, ih]
    · simp [hq, ih]

theorem mem_broadcast_payload (isOpen : Nat → Bool) (l : List Nat)
    (m : OutMsg) (a : Nat) (b : OutMsg)
    (h : (a, b) ∈ broadcastToAndroid isOpen l m) : b = m := by
  simp only [broadcastToAndroid, List.mem_map, List.mem_filter] at h
  rcases h with ⟨c, _, hc⟩
  exact (congrArg Prod.snd hc).symm

theorem dbFindByMac_append_self (db : List DBRow) (row : DBRow) (mac : String)
    (h : dbFindByMac db mac = none) (hm : row.mac = mac) :
    dbFindByMac (db ++ [row]) mac = some row := by
  induction db with
  | nil => simp [dbFindByMac, List.find?, hm]
  | cons r tl ih =>
    unfold dbFindByMac at h ih ⊢
    rw [List.cons_append]
    by_cases hr : r.mac = mac
    · rw [List.find?_cons_of_pos _ (by simpa using hr)] at h
      exact absurd h (by simp)
    · rw [List.find?_cons_of_neg _ (by simpa using hr)] at h
      rw [List.find?_cons_of_neg _ (by simpa using hr)]
      exact ih h

/-! ### The claims -/

/-- C2: for every network address not present in the device store, a
device registration handshake presenting it replies with an error
message, closes the connection, and leaves the server state — in
particular the connection registry — unchanged, in both revisions of
`handleRegister`. -/
theorem c2_register_unknown_mac (isOpen : Nat → Bool) (uf : Bool)
    (now : Nat) (s : ServerState) (ws : Nat) (mac : String)
    (hmac : mac ≠ "") (habs : dbFindByMac s.db mac = none) :
    (handleRegister_rev2 isOpen false uf now s ws
        { clientType := "esp32", mac := some mac }).sends =
      [(ws, OutMsg.errorMsg "MAC non enregistrée")] ∧
    (handleRegister_rev2 isOpen false uf now s ws
        { clientType := "esp32", mac := some mac }).closes = [ws] ∧
    (handleRegister_rev2 isOpen false uf now s ws
        { clientType := "esp32", mac := some mac }).state = s ∧
    (handleRegister_rev1 false s ws
        { clientType := "esp32", mac := some mac }).sends =
      [(ws, OutMsg.errorMsg
        "MAC non enregistrée. Installer via app Android.")] ∧
    (handleRegister_rev1 false s ws
        { clientType := "esp32", mac := some mac }).closes = [ws] ∧
    (handleRegister_rev1 false s ws
        { clientType := "esp32", mac := some mac }).state = s := by
  refine ⟨?_, ?_, ?_, ?_, ?_, ?_⟩ <;>
    simp [handleRegister_rev2, handleRegister_rev1, habs, hmac]

/-- C2 witness: the unknown address "ZZ" on the concrete example state. -/
theorem c2_register_unknown_mac_witness :
    (handleRegister_rev2 exOpen false false 7 exState 9
        { clientType := "esp32", mac := some "ZZ" }).sends =
      [(9, OutMsg.errorMsg "MAC non enregistrée")] ∧
    (handleRegister_rev2 exOpen false false 7 exState 9
        { clientType := "esp32", mac := some "ZZ" }).closes = [9] := by
  have h := c2_register_unknown_mac exOpen false 7 exState 9 "ZZ"
    (by decide) (by rfl)
  exact ⟨h.1, h.2.1⟩

/-- C6: the registry-aware read path returns effective status
`CONNECTED` when a live connection exists and the durable status is
`OFF`; `HORS_LIGNE` whenever no live connection exists; and the durable
status unchanged when a live connection exists and the status is not
`OFF`. -/
theorem c6_effective_status (es : List (String × Client)) (lamp : DBRow) :
    (es.any (fun p => p.1 == lamp.mac) = true → lamp.status = "OFF" →
      (applyEffectiveStatus es lamp).status = "CONNECTED") ∧
    (es.any (fun p => p.1 == lamp.mac) = false →
      (applyEffectiveStatus es lamp).status = "HORS_LIGNE") ∧
    (es.any (fun p => p.1 == lamp.mac) = true → lamp.status ≠ "OFF" →
      (applyEffectiveStatus es lamp).status = lamp.status) := by
  refine ⟨fun hc hoff => ?_, fun hc => ?_, fun hc hnoff => ?_⟩ <;>
    simp [applyEffectiveStatus, hc] <;> simp_all

/-- C6 witness: all three cases at concrete inputs. -/
theorem c6_effective_status_witness :
    (applyEffectiveStatus [("AA:BB", clientA)] rowA).status = "CONNECTED" ∧
    (applyEffectiveStatus [] rowA).status = "HORS_LIGNE" ∧
    (applyEffectiveStatus [("AA:BB", clientA)]
        { rowA with status := "ON" }).status = "ON" := by
  refine ⟨(c6_effective_status [("AA:BB", clientA)] rowA).1 (by decide)
      (by decide),
    (c6_effective_status [] rowA).2.1 (by decide),
    (c6_effective_status [("AA:BB", clientA)]
        { rowA with status := "ON" }).2.2 (by decide) (by decide)⟩

/-- C5: a second successful registration handshake for an address with
an existing live registry entry replaces that entry — a lookup by the
address afterwards returns the new connection with the identity and
token resolved from the store — and the handler closes no connection
(the superseded one in particular). -/
theorem c5_reregister_replaces (isOpen : Nat → Bool) (now : Nat)
    (s : ServerState) (ws : Nat) (mac : String) (row : DBRow)
    (old : Client) (hmac : mac ≠ "")
    (hrow : dbFindByMac s.db mac = some row)
    (_hold : mapGet s.espClients mac = some old) :
    mapGet (handleRegister_rev2 isOpen false false now s ws
        { clientType := "esp32", mac := some mac }).state.espClients mac =
      some { ws := ws, lampId := .str row.id, token := row.token } ∧
    (handleRegister_rev2 isOpen false false now s ws
        { clientType := "esp32", mac := some mac }).closes = [] := by
  constructor
  · simp [handleRegister_rev2, hrow, hmac, mapGet_mapSet]
  · simp [handleRegister_rev2, hrow, hmac]

/-- C5 witness: the device of `exState` re-registers on connection 9;
lookup then returns connection 9 and nothing is closed. -/
theorem c5_reregister_replaces_witness :
    mapGet (handleRegister_rev2 exOpen false false 7 exState 9
        { clientType := "esp32", mac := some "AA:BB" }).state.espClients
      "AA:BB" =
      some { ws := 9, lampId := .str "LAMP0001", token := "tokA" } ∧
    (handleRegister_rev2 exOpen false false 7 exState 9
        { clientType := "esp32", mac := some "AA:BB" }).closes = [] := by
  exact c5_reregister_replaces exOpen 7 exState 9 "AA:BB" rowA clientA
    (by decide) (by rfl) (by rfl)

/-- C10: in revision 2, the registry insert precedes the eager
`CONNECTED` store write; when that write fails the error is only
logged: the registry keeps the new entry, no welcome reply and no
`lamp_connected` broadcast is sent, the connection is not closed, and
the durable store is unchanged (the single attempted write is
recorded). -/
theorem c10_register_eager_write_failure (isOpen : Nat → Bool) (now : Nat)
    (s : ServerState) (ws : Nat) (mac : String) (row : DBRow)
    (hmac : mac ≠ "") (hrow : dbFindByMac s.db mac = some row) :
    mapGet (handleRegister_rev2 isOpen false true now s ws
        { clientType := "esp32", mac := some mac }).state.espClients mac =
      some { ws := ws, lampId := .str row.id, token := row.token } ∧
    (handleRegister_rev2 isOpen false true now s ws
        { clientType := "esp32", mac := some mac }).sends = [] ∧
    (handleRegister_rev2 isOpen false true now s ws
        { clientType := "esp32", mac := some mac }).closes = [] ∧
    (handleRegister_rev2 isOpen false true now s ws
        { clientType := "esp32", mac := some mac }).state.db = s.db ∧
    (handleRegister_rev2 isOpen false true now s ws
        { clientType := "esp32", mac := some mac }).writes =
      [DBWrite.updateStatusByMac "CONNECTED" mac] := by
  refine ⟨?_, ?_, ?_, ?_, ?_⟩ <;>
    simp [handleRegister_rev2, hrow, hmac, mapGet_mapSet]

/-- C10 witness: the device of `exState` registers on connection 9 and
the `CONNECTED` write fails. -/
theorem c10_register_eager_write_failure_witness :
    mapGet (handleRegister_rev2 exOpen false true 7 exState 9
        { clientType := "esp32", mac := some "AA:BB" }).state.espClients
      "AA:BB" =
      some { ws := 9, lampId := .str "LAMP0001", token := "tokA" } ∧
    (handleRegister_rev2 exOpen false true 7 exState 9
        { clientType := "esp32", mac := some "AA:BB" }).sends = [] := by
  have h := c10_register_eager_write_failure exOpen 7 exState 9 "AA:BB" rowA
    (by decide) (by rfl)
  exact ⟨h.1, h.2.1⟩

/-- C1 counterexample: on the example state the stored signal strength
is 42; after the close event for the registered device connection the
single store write only sets status `HORS_LIGNE` (plus the timestamp)
and the row's signal is still 42, not reset to the schema's neutral
default 0 — the claimed signal/strength reset does not happen. -/
theorem c1_close_no_signal_reset :
    (wsClose_rev2 exOpen false 7 exState 1).writes =
      [DBWrite.updateStatusByMac "HORS_LIGNE" "AA:BB"] ∧
    (wsClose_rev2 exOpen false 7 exState 1).state.db.map DBRow.signal =
      [42] ∧
    (wsClose_rev2 exOpen false 7 exState 1).state.db.map DBRow.signal ≠
      [0] := by
  refine ⟨rfl, rfl, by decide⟩

/-- C1 as amended: closing a registered device connection (revision 2,
the revision that persists on disconnect; the entry found is the first
whose handle equals the closing connection) removes that registry
entry, performs exactly one store write setting the device's status to
`HORS_LIGNE` — leaving the signal/strength metadata unchanged — and
performs exactly one `lamp_disconnected` broadcast (carrying the
resolved identity, network address, and new status) to every
currently-open observer connection and zero broadcasts to closed
ones. -/
theorem c1_close_registered_device (isOpen : Nat → Bool) (now : Nat)
    (s : ServerState) (w : Nat) (mac : String) (c : Client)
    (hfind : s.espClients.find? (fun p => p.2.ws == w) = some (mac, c)) :
    (wsClose_rev2 isOpen false now s w).state.espClients =
      mapDelete s.espClients mac ∧
    mapGet (wsClose_rev2 isOpen false now s w).state.espClients mac =
      none ∧
    (wsClose_rev2 isOpen false now s w).writes =
      [DBWrite.updateStatusByMac "HORS_LIGNE" mac] ∧
    (wsClose_rev2 isOpen false now s w).state.db.map DBRow.signal =
      s.db.map DBRow.signal ∧
    (wsClose_rev2 isOpen false now s w).sends =
      (s.androidClients.filter isOpen).map
        (fun o => (o, OutMsg.lampDisconnected c.lampId mac
          "HORS_LIGNE")) := by
  refine ⟨?_, ?_, ?_, ?_, ?_⟩ <;>
    simp [wsClose_rev2, hfind, mapGet_mapDelete,
      signal_dbUpdateStatusByMac, broadcastToAndroid]

/-- C1 witness: on the example state (observer 5 open, observer 6
closed) the close of connection 1 empties the registry, writes
`HORS_LIGNE` once, and sends exactly one `lamp_disconnected`, to
observer 5 only. -/
theorem c1_close_registered_device_witness :
    mapGet (wsClose_rev2 exOpen false 7 exState 1).state.espClients
      "AA:BB" = none ∧
    (wsClose_rev2 exOpen false 7 exState 1).sends =
      [(5, OutMsg.lampDisconnected (.str "LAMP0001") "AA:BB"
        "HORS_LIGNE")] := by
  have h := c1_close_registered_device exOpen 7 exState 1 "AA:BB" clientA
    (by rfl)
  refine ⟨h.2.1, ?_⟩
  rw [h.2.2.2.2]
  rfl

/-- C7: when the `HORS_LIGNE` store write thrown on disconnect fails,
exactly one write is attempted (no retry), the durable store is left
unchanged, no broadcast goes out, and the in-memory registry removal
still proceeds: the entry for the network address is gone. -/
theorem c7_close_store_failure (isOpen : Nat → Bool) (now : Nat)
    (s : ServerState) (w : Nat) (mac : String) (c : Client)
    (hfind : s.espClients.find? (fun p => p.2.ws == w) = some (mac, c)) :
    mapGet (wsClose_rev2 isOpen true now s w).state.espClients mac =
      none ∧
    (wsClose_rev2 isOpen true now s w).writes =
      [DBWrite.updateStatusByMac "HORS_LIGNE" mac] ∧
    (wsClose_rev2 isOpen true now s w).state.db = s.db ∧
    (wsClose_rev2 isOpen true now s w).sends = [] := by
  refine ⟨?_, ?_, ?_, ?_⟩ <;>
    simp [wsClose_rev2, hfind, mapGet_mapDelete]

/-- C7 witness: the failing disconnect write on the example state. -/
theorem c7_close_store_failure_witness :
    mapGet (wsClose_rev2 exOpen true 7 exState 1).state.espClients
      "AA:BB" = none ∧
    (wsClose_rev2 exOpen true 7 exState 1).state.db = exState.db := by
  have h := c7_close_store_failure exOpen 7 exState 1 "AA:BB" clientA
    (by rfl)
  exact ⟨h.1, h.2.2.1⟩

/-- C3: a directed command (truthy target, not the `"0"` sentinel) is
delivered to exactly the first registry entry that is a live match —
one device delivery when such an entry exists, zero when none does —
and in either case the `command_sent` confirmation is broadcast exactly
once to the observers. -/
theorem c3_command_directed (isOpen : Nat → Bool) (s : ServerState)
    (cmd : String) (t : JSVal)
    (htr : jsTruthy t = true) (h0 : strictEq t (.str "0") = false) :
    deviceDeliveries (handleCommand_rev2 isOpen s
        { command := cmd, idLampadaire := some t }) =
      (match s.espClients.find? (matchesTarget_rev2 isOpen t) with
       | some e => [e.2.ws]
       | none => []) ∧
    confirmSends (handleCommand_rev2 isOpen s
        { command := cmd, idLampadaire := some t }) =
      broadcastToAndroid isOpen s.androidClients
        (OutMsg.commandSent cmd (some t)) := by
  cases hf : s.espClients.find? (matchesTarget_rev2 isOpen t) with
  | some e =>
    constructor
    · simp [handleCommand_rev2, deviceDeliveries, hf, htr, h0,
        OutMsg.isFwd]
      intro a b hab
      rw [mem_broadcast_payload _ _ _ _ _ hab]
    · simp [handleCommand_rev2, confirmSends, hf, htr, h0,
        OutMsg.isConfirm]
      intro a b hab
      rw [mem_broadcast_payload _ _ _ _ _ hab]
  | none =>
    constructor
    · simp [handleCommand_rev2, deviceDeliveries, hf, htr, h0,
        OutMsg.isFwd]
      intro a b hab
      rw [mem_broadcast_payload _ _ _ _ _ hab]
    · simp [handleCommand_rev2, confirmSends, hf, htr, h0,
        OutMsg.isConfirm]
      intro a b hab
      rw [mem_broadcast_payload _ _ _ _ _ hab]

/-- C3 witness: on the example state, the command directed at
`LAMP0001` is delivered once, to connection 1, and confirmed once, to
the open observer 5; directed at the unknown `LAMP9999` it is delivered
to nobody and still confirmed once. -/
theorem c3_command_directed_witness :
    deviceDeliveries (handleCommand_rev2 exOpen exState
      { command := "ON", idLampadaire := some (.str "LAMP0001") }) = [1] ∧
    confirmSends (handleCommand_rev2 exOpen exState
        { command := "ON", idLampadaire := some (.str "LAMP0001") }) =
      [(5, OutMsg.commandSent "ON" (some (.str "LAMP0001")))] ∧
    deviceDeliveries (handleCommand_rev2 exOpen exState
      { command := "ON", idLampadaire := some (.str "LAMP9999") }) = [] := by
  have h1 := c3_command_directed exOpen exState "ON" (.str "LAMP0001")
    (by decide) (by decide)
  have h2 := c3_command_directed exOpen exState "ON" (.str "LAMP9999")
    (by decide) (by decide)
  refine ⟨?_, ?_, ?_⟩
  · rw [h1.1]; rfl
  · rw [h1.2]; rfl
  · rw [h2.1]; rfl

/-- C4 counterexample: a registry entry whose resolved identity is the
string `"5"` and a command whose target identity is the number `5` —
same digits, different types.  Under revision 2's
`String(client.lampId) === String(targetLampId)` test they are treated
as a match and the command IS delivered to that entry (connection 7),
contradicting the claimed non-match. -/
theorem c4_numeric_vs_string_delivered :
    deviceDeliveries (handleCommand_rev2 (fun _ => true) digitState
      { command := "ON", idLampadaire := some (.num 5) }) = [7] := by
  decide

/-- C4 as amended: in revision 2 the target identity is matched against
a registry entry's resolved identity after coercing both to strings, so
a numeric identity and a string identity of the same digits are treated
as a match and the command is delivered to such an entry; only revision
1's strict comparison treats them as non-matches (zero deliveries
there). -/
theorem c4_id_matching_amended (isOpen : Nat → Bool) (s : ServerState)
    (cmd mac : String) (c : Client) (n : Int) (hn : n ≠ 0)
    (hes : s.espClients = [(mac, c)])
    (hid : c.lampId = .str (toString n))
    (hopen : isOpen c.ws = true) :
    deviceDeliveries (handleCommand_rev2 isOpen s
      { command := cmd, idLampadaire := some (.num n) }) = [c.ws] ∧
    deviceDeliveries (handleCommand_rev1 isOpen s
      { command := cmd, idLampadaire := some (.num n) }) = [] := by
  constructor
  · simp [handleCommand_rev2, deviceDeliveries, hes, hid, hopen, hn,
      jsTruthy, strictEq, jsToString, matchesTarget_rev2, OutMsg.isFwd]
    intro a b hab
    rw [mem_broadcast_payload _ _ _ _ _ hab]
  · simp [handleCommand_rev1, deviceDeliveries, hes, hid, hopen, hn,
      jsTruthy, strictEq, OutMsg.isFwd]
    intro a b hab
    rw [mem_broadcast_payload _ _ _ _ _ hab]

/-- C4 witness: identity string `"5"` versus numeric target `5` on a
one-entry registry: revision 2 delivers to connection 7, revision 1
delivers to nobody. -/
theorem c4_id_matching_amended_witness :
    deviceDeliveries (handleCommand_rev2 (fun _ => true) digitState
      { command := "OFF", idLampadaire := some (.num 5) }) = [7] ∧
    deviceDeliveries (handleCommand_rev1 (fun _ => true) digitState
      { command := "OFF", idLampadaire := some (.num 5) }) = [] := by
  exact c4_id_matching_amended (fun _ => true) digitState
    "OFF" "AA:BB" clientB 5 (by decide) (by rfl) (by rfl) (by rfl)

/-- C8: round-trip — installing a device under a fresh network address
returns the generated identity and token, and a registration handshake
presenting that address on the unchanged store resolves the same
identity and token, both in the welcome reply and in the registry
entry. -/
theorem c8_install_register_roundtrip (isOpen : Nat → Bool)
    (s : ServerState) (ws now now2 : Nat) (req : InstallReq)
    (newId newToken : String)
    (hmac : req.mac ≠ "") (hlat : jsTruthy req.latitude = true)
    (hlon : jsTruthy req.longitude = true)
    (habs : dbFindByMac s.db req.mac = none)
    (hid : s.db.any (fun r => r.id == newId) = false) :
    (installLamp isOpen s req newId newToken now).2 =
      InstallResp.ok newId newToken ∧
    (handleRegister_rev2 isOpen false false now2
        (installLamp isOpen s req newId newToken now).1.state ws
        { clientType := "esp32", mac := some req.mac }).sends =
      (ws, OutMsg.welcomeEsp newId newToken "CONNECTED") ::
        broadcastToAndroid isOpen s.androidClients
          (OutMsg.lampConnected newId req.mac "CONNECTED") ∧
    mapGet (handleRegister_rev2 isOpen false false now2
        (installLamp isOpen s req newId newToken now).1.state ws
        { clientType := "esp32", mac := some req.mac }).state.espClients
      req.mac =
      some { ws := ws, lampId := .str newId, token := newToken } := by
  have hresp : (installLamp isOpen s req newId newToken now).2 =
      InstallResp.ok newId newToken := by
    simp [installLamp, hmac, hlat, hlon, habs, hid]
  have hstate : (installLamp isOpen s req newId newToken now).1.state =
      { s with db := s.db ++
          [{ id := newId, mac := req.mac, latitude := req.latitude,
             longitude := req.longitude, status := "OFF", signal := 0,
             token := newToken, lastUpdate := now }] } := by
    simp [installLamp, hmac, hlat, hlon, habs, hid]
  have hfound := dbFindByMac_append_self s.db
    { id := newId, mac := req.mac, latitude := req.latitude,
      longitude := req.longitude, status := "OFF", signal := 0,
      token := newToken, lastUpdate := now } req.mac habs rfl
  refine ⟨hresp, ?_, ?_⟩
  · rw [hstate]
    simp [handleRegister_rev2, hmac, hfound]
  · rw [hstate]
    simp [handleRegister_rev2, hmac, hfound, mapGet_mapSet]

/-- C8 witness: installing mac "CC:DD" on the example state with
generated id "LAMP0007" and token "tokN", then registering on
connection 9. -/
theorem c8_install_register_roundtrip_witness :
    (installLamp exOpen exState
        { mac := "CC:DD", latitude := .num 1, longitude := .num 2 }
        "LAMP0007" "tokN" 3).2 = InstallResp.ok "LAMP0007" "tokN" ∧
    mapGet (handleRegister_rev2 exOpen false false 4
        (installLamp exOpen exState
          { mac := "CC:DD", latitude := .num 1, longitude := .num 2 }
          "LAMP0007" "tokN" 3).1.state 9
        { clientType := "esp32", mac := some "CC:DD" }).state.espClients
      "CC:DD" =
      some { ws := 9, lampId := .str "LAMP0007", token := "tokN" } := by
  have h := c8_install_register_roundtrip exOpen exState 9 3 4
    { mac := "CC:DD", latitude := .num 1, longitude := .num 2 }
    "LAMP0007" "tokN" (by decide) (by decide) (by decide)
    (by rfl) (by rfl)
  exact ⟨h.1, h.2.2⟩

/-- The close handler always ends by filtering the closing connection
out of `androidClients`, whatever the device-reconciliation branch
did. -/
theorem wsClose_androidClients (isOpen : Nat → Bool) (uf : Bool)
    (now : Nat) (s : ServerState) (w : Nat) :
    (wsClose_rev2 isOpen uf now s w).state.androidClients =
      s.androidClients.filter (fun c => c != w) := by
  unfold wsClose_rev2
  cases hf : s.espClients.find? (fun p => p.2.ws == w) with
  | none => simp [noOutcome]
  | some e =>
    obtain ⟨mac, c⟩ := e
    cases uf <;> simp

/-- Registering as an observer `n` times appends the connection handle
`n` times: nothing deduplicates `androidClients`. -/
theorem registerAndroidN_androidClients (isOpen : Nat → Bool) (now : Nat)
    (ws : Nat) (n : Nat) (s : ServerState) :
    (registerAndroidN isOpen now ws n s).androidClients =
      s.androidClients ++ List.replicate n ws := by
  induction n generalizing s with
  | zero => simp [registerAndroidN]
  | succ k ih =>
    rw [registerAndroidN, ih]
    simp [handleRegister_rev2, List.replicate_succ]

/-- The number of broadcast sends that reach a given open connection
equals the number of times that connection occurs in the observer
list. -/
theorem broadcast_sends_to (isOpen : Nat → Bool) (l : List Nat)
    (m : OutMsg) (w : Nat) (hopen : isOpen w = true) :
    ((broadcastToAndroid isOpen l m).filter (fun p => p.1 == w)).length =
      l.count w := by
  unfold broadcastToAndroid
  induction l with
  | nil => rfl
  | cons c tl ih =>
    by_cases hc : c = w
    · subst hc
      simp [List.filter_cons, hopen, List.count_cons, ih]
    · cases hoc : isOpen c <;>
        simp [List.filter_cons, hoc, List.count_cons, hc, ih]

/-- C9: `n` observer registrations from one connection (open, not yet
an observer) leave `n` occurrences in the observer collection, a single
broadcast then delivers the message `n` times to that connection, and
the connection's close event removes all `n` occurrences at once. -/
theorem c9_android_register_no_dedup (isOpen : Nat → Bool) (now : Nat)
    (s : ServerState) (ws : Nat) (n : Nat) (m : OutMsg)
    (hopen : isOpen ws = true)
    (hnew : s.androidClients.count ws = 0) :
    (registerAndroidN isOpen now ws n s).androidClients.count ws = n ∧
    ((broadcastToAndroid isOpen
        (registerAndroidN isOpen now ws n s).androidClients m).filter
      (fun p => p.1 == ws)).length = n ∧
    (wsClose_rev2 isOpen false now (registerAndroidN isOpen now ws n s)
      ws).state.androidClients.count ws = 0 := by
  have hcount : (registerAndroidN isOpen now ws n s).androidClients.count
      ws = n := by
    rw [registerAndroidN_androidClients]
    simp [List.count_append, hnew]
  refine ⟨hcount, ?_, ?_⟩
  · rw [broadcast_sends_to isOpen _ m ws hopen, hcount]
  · rw [wsClose_androidClients]
    simp [List.count_eq_zero, List.mem_filter]

/-- C9 witness: three observer registrations of connection 8 on the
example state, a broadcast reaching it three times, and its close
emptying all three occurrences. -/
theorem c9_android_register_no_dedup_witness :
    (registerAndroidN exOpen 7 8 3 exState).androidClients.count 8 = 3 ∧
    ((broadcastToAndroid exOpen
        (registerAndroidN exOpen 7 8 3 exState).androidClients
        OutMsg.welcomeAndroid).filter (fun p => p.1 == 8)).length = 3 ∧
    (wsClose_rev2 exOpen false 7 (registerAndroidN exOpen 7 8 3 exState)
      8).state.androidClients.count 8 = 0 := by
  exact c9_android_register_no_dedup exOpen 7 exState 8 3
    OutMsg.welcomeAndroid (by decide) (by decide)

end Serveur
